import Mathlib

/-!
Shallow embedding of the app-sync repository core: the per-application
lifecycle orchestrator (factory, download coordinator, update/start/stop/restart
sequencing) and the webhook notification dispatcher, together with theorems
settling the specification claims.

Modules of the repository that are not among the available sources
(`util`, `const`, `route`, `pm2`, `app-update`, `app-download`, `app-version`)
are modelled from the spec; each such definition says so in its doc comment.
-/

namespace AppSync

/-- Splits a character list at every occurrence of `c`, keeping empty
segments, so that an empty input gives one empty segment. -/
def splitCharList (c : Char) : List Char → List (List Char)
  | [] => [[]]
  | x :: xs =>
    if x = c then [] :: splitCharList c xs
    else
      match splitCharList c xs with
      | [] => [[x]]
      | y :: ys => (x :: y) :: ys

/-- JS `s.split("/")`: splits on every slash, keeping empty segments, and an
empty string splits to `[""]`. -/
def jsSplit (s : String) : List String :=
  (splitCharList '/' s.toList).map (fun l => String.mk l)

/-- JS `x || d` for an optional string: a missing value or the empty string
(falsy) yields the default. -/
def jsOrStr (o : Option String) (d : String) : String :=
  match o with
  | none => d
  | some s => if s = "" then d else s

/-- JS `x || d` for an optional number: a missing value or `0` (falsy) yields
the default. -/
def jsOrNat (o : Option Nat) (d : Nat) : Nat :=
  match o with
  | none => d
  | some n => if n = 0 then d else n

/-- Modelled from the spec: `isEmpty` of the util module is not among the
sources; it is the missing-or-empty check used by the factory validation. -/
def isEmpty : Option String → Bool
  | none => true
  | some s => s.isEmpty

/-- Modelled from the spec: the const module is not among the sources; the
port default is a fixed value whose exact number no claim depends on. -/
def DEFAULT_APP_PORT : Nat := 5000

/-- Modelled from the spec: the const module is not among the sources; the
target-folder default is a fixed root whose exact value no claim depends on. -/
def DEFAULT_TARGET_FOLDER : String := "./.build"

/-- Distinct validation errors thrown by the app factory, one per distinct
`throw new Error(...)` site. -/
inductive FactoryError
  | missingId
  | missingRepo
  | missingUserAgent
  | missingRoute
  | repoTooFewSegments
deriving Repr, DecidableEq

/-- The settings object taken by the app factory; optional fields model
JS fields that may be absent.  `publishEvent` records whether the
event-publish callback was supplied. -/
structure Settings where
  userAgent : Option String := none
  token : Option String := none
  targetFolder : Option String := none
  id : Option String := none
  repo : Option String := none
  port : Option Nat := none
  branch : Option String := none
  route : Option String := none
  publishEvent : Bool := false
deriving Repr, DecidableEq

/-- The app object built by the factory.  `repoName` is the
`"user/repo-name"` string handed to the github client (it surfaces as
`repo.name` and is what the webhook dispatcher matches against);
`routes` is the route value passed through opaquely (the route module is
not among the sources and the spec treats routes as opaque descriptors). -/
structure App where
  id : String
  repoName : String
  repoSubFolder : String
  repoFullPath : String
  routes : String
  port : Nat
  branch : String
  localFolder : String
  hasPublishEvent : Bool
deriving Repr, DecidableEq

/-- The process name derived on registration: `"<id>:<port>"`. -/
def processName (app : App) : String := app.id ++ ":" ++ toString app.port

/-- The app factory: validation checks in source order (id, repo, user-agent,
route, then the two-segment repo check), defaulting of branch, target folder
and port with JS `||` semantics, and construction of the app value. -/
def createApp (s : Settings) : Except FactoryError App :=
  if isEmpty s.id then .error .missingId
  else if isEmpty s.repo then .error .missingRepo
  else if isEmpty s.userAgent then .error .missingUserAgent
  else if isEmpty s.route then .error .missingRoute
  else
    let id := s.id.getD ""
    let repo := s.repo.getD ""
    let branch := jsOrStr s.branch "master"
    let targetFolder := jsOrStr s.targetFolder DEFAULT_TARGET_FOLDER
    let port := jsOrNat s.port DEFAULT_APP_PORT
    let parts := jsSplit repo
    if parts.length < 2 then .error .repoTooFewSegments
    else
      let repoUser := parts.getD 0 ""
      let repoName := parts.getD 1 ""
      .ok {
        id := id
        repoName := repoUser ++ "/" ++ repoName
        repoSubFolder := String.intercalate "/" (parts.drop 2)
        repoFullPath := repo
        routes := s.route.getD ""
        port := port
        branch := branch
        localFolder := targetFolder ++ "/" ++ id
        hasPublishEvent := s.publishEvent }

/-! ### Download coordinator

State of the single-flight slot of one app.  A `Nat` handle stands for a
promise: equal handles are the same promise and hence settle to the same
result.  `downloading` is the `this.downloading` slot, `materializeCalls`
counts invocations of the underlying materialization capability
(`appDownload`). -/

structure DlState where
  downloading : Option Nat
  nextOp : Nat
  materializeCalls : Nat
deriving Repr, DecidableEq

/-- The `download()` method: if the slot is set, return the pending handle
unchanged; otherwise invoke the materialization capability, store the new
handle in the slot and return it. -/
def download (s : DlState) : Nat × DlState :=
  match s.downloading with
  | some p => (p, s)
  | none =>
    (s.nextOp,
     { downloading := some s.nextOp
       nextOp := s.nextOp + 1
       materializeCalls := s.materializeCalls + 1 })

/-- `n` successive `download()` calls, collecting the returned handles. -/
def downloadN : Nat → DlState → List Nat × DlState
  | 0, s => ([], s)
  | n+1, s =>
    let hs := downloadN n (download s).2
    ((download s).1 :: hs.1, hs.2)

/-- How the underlying materialization operation settles. -/
inductive Outcome
  | success
  | failure
deriving Repr, DecidableEq

/-- Settlement of the underlying `appDownload` operation.  The source
attaches only a fulfillment handler (`.then(result => ...)`) that clears the
slot; there is no rejection handler, so on failure the slot is left as it
was. -/
def settleDownload (s : DlState) (o : Outcome) : DlState :=
  match o with
  | .success => { s with downloading := none }
  | .failure => s

/-! ### Lifecycle state machine (update / start / stop / restart)

The lifecycle methods are embedded as state-passing functions that also
emit an event trace.  The code awaits every step (bluebird coroutine
yields), so a sequential trace is faithful.  `Env` holds the world the
operations act on: the local and remote manifest versions, whether the
materialization succeeds, and the process-supervisor state. -/

/-- Observable events emitted by the lifecycle operations.  `remoteExists`
fields throughout model the JS `exists` field (`exists` is a Lean keyword). -/
inductive Ev
  | versionResolve
  | downloadCall
  | pm2Connect
  | pm2Delete (name : String)
  | stopDone (name : String)
  | supStart (name : String)
  | warnMissing
  | publish (event : String) (payloadId : String) (payloadVersion : Option String)
deriving Repr, DecidableEq

/-- The world acted on by one app: manifest versions (remote `none` means the
remote manifest is absent, the `{exists:false}` case), whether a
materialization attempt succeeds, and the process supervisor. -/
structure Env where
  localVersion : Option String
  remoteVersion : Option String
  downloadOk : Bool
  pm2Installed : Bool
  pm2Running : List String
deriving Repr, DecidableEq

/-- Result shape of `update()`: `{exists, updated, version?, started?}`.
`remoteExists` models the JS `exists` field. -/
structure UpdateResult where
  remoteExists : Bool
  updated : Bool
  version : Option String
  started : Option Bool
deriving Repr, DecidableEq

/-- Result shape of `start()`: `{id, port, routes, version, started, exists}`.
`remoteExists` models the JS `exists` field. -/
structure StartResult where
  id : String
  port : Nat
  routes : String
  version : Option String
  started : Bool
  remoteExists : Bool
deriving Repr, DecidableEq

/-- Result shape of `stop()`: `{id, stopped:true}`. -/
structure StopResult where
  id : String
  stopped : Bool
deriving Repr, DecidableEq

/-- Result shape of `restart()`: `{id, restarted:true}`. -/
structure RestartResult where
  id : String
  restarted : Bool
deriving Repr, DecidableEq

/-- Modelled from the spec: the pm2 adapter module is not among the sources;
`connect` always succeeds. -/
def pm2ConnectOp (env : Env) : Except String Env := .ok env

/-- Modelled from the spec: the pm2 adapter module is not among the sources;
`delete` removes the named process and never errors, in particular deleting
an absent (already stopped) process is not an error. -/
def pm2DeleteOp (env : Env) (name : String) : Except String Env :=
  .ok { env with pm2Running := env.pm2Running.filter (· ≠ name) }

/-- The `stop()` method: if pm2 is installed, connect and delete the named
process, else no-op; resolve `{id, stopped:true}`; any error from the pm2
capability would be propagated by the try/catch (the modelled capability
never errors). -/
def stop (app : App) (env : Env) : Except String StopResult × Env × List Ev :=
  if env.pm2Installed then
    match pm2ConnectOp env with
    | .error e => (.error e, env, [])
    | .ok env1 =>
      match pm2DeleteOp env1 (processName app) with
      | .error e => (.error e, env1, [Ev.pm2Connect])
      | .ok env2 =>
        (.ok ⟨app.id, true⟩, env2,
         [Ev.pm2Connect, Ev.pm2Delete (processName app), Ev.stopDone (processName app)])
  else (.ok ⟨app.id, true⟩, env, [Ev.stopDone (processName app)])

/-- Modelled from the spec: the `app-update` and `app-version` modules are
not among the sources.  Core of `update`, without the start step and without
the publish wrapper: resolve the version; if the remote manifest is absent
the result is `{exists:false, updated:false}`; an update is needed iff the
versions differ or no local manifest exists; if needed, materialize (which
makes the local manifest match the remote one) or propagate the source
error. -/
def updateCore (env : Env) : Except String UpdateResult × Env × List Ev :=
  match env.remoteVersion with
  | none => (.ok ⟨false, false, none, none⟩, env, [Ev.versionResolve])
  | some rv =>
    if env.localVersion = some rv then
      (.ok ⟨true, false, some rv, none⟩, env, [Ev.versionResolve])
    else if env.downloadOk then
      (.ok ⟨true, true, some rv, none⟩,
       { env with localVersion := some rv }, [Ev.versionResolve, Ev.downloadCall])
    else
      (.error "SourceUnavailableError", env, [Ev.versionResolve, Ev.downloadCall])

/-- `update({start:false})` as invoked from `start()`: the update core plus
the publish wrapper of the source `update` method, which fires the
event-publish callback exactly when the callback was supplied and the
settled result has `updated` true. -/
def updateNoStart (app : App) (env : Env) : Except String UpdateResult × Env × List Ev :=
  match updateCore env with
  | (.error e, env1, t1) => (.error e, env1, t1)
  | (.ok res, env1, t1) =>
    (.ok res, env1,
     t1 ++ (if app.hasPublishEvent && res.updated then
              [Ev.publish "app:updated" app.id res.version] else []))

/-- The `start()` method: awaits `update({start:false})`, then awaits
`stop()`, then, when the update result has `exists !== false`, issues the
process-supervisor start for the process named `"<id>:<port>"`; when the
remote does not exist it logs a warning and resolves with
`started:false, exists:false`. -/
def start (app : App) (env : Env) : Except String StartResult × Env × List Ev :=
  match updateNoStart app env with
  | (.error e, env1, t1) => (.error e, env1, t1)
  | (.ok status, env1, t1) =>
    match stop app env1 with
    | (.error e, env2, t2) => (.error e, env2, t1 ++ t2)
    | (.ok _, env2, t2) =>
      if status.remoteExists then
        (.ok ⟨app.id, app.port, app.routes, status.version, true, true⟩, env2,
         t1 ++ t2 ++ [Ev.supStart (processName app)])
      else
        (.ok ⟨app.id, app.port, app.routes, status.version, false, false⟩, env2,
         t1 ++ t2 ++ [Ev.warnMissing])

/-- The `update(options)` method with `options.start` explicit (default true
in the source).  With start enabled the modelled `app-update` core invokes
`start()` after a successful materialization (spec step 3); the publish
wrapper then fires the callback exactly when the callback was supplied and
the settled result has `updated` true; a rejection fires nothing. -/
def update (app : App) (env : Env) (startOpt : Bool) : Except String UpdateResult × Env × List Ev :=
  if startOpt then
    match updateCore env with
    | (.error e, env1, t1) => (.error e, env1, t1)
    | (.ok res, env1, t1) =>
      if res.updated then
        match start app env1 with
        | (.error e, env2, t2) => (.error e, env2, t1 ++ t2)
        | (.ok sr, env2, t2) =>
          (.ok { res with started := some sr.started }, env2,
           t1 ++ t2 ++ (if app.hasPublishEvent then
                          [Ev.publish "app:updated" app.id res.version] else []))
      else (.ok res, env1, t1)
  else updateNoStart app env

/-- The `restart()` method: awaits `start()`, then calls the event-publish
callback unconditionally; when no callback was supplied that call throws and
the catch rejects the operation. -/
def restart (app : App) (env : Env) : Except String RestartResult × Env × List Ev :=
  match start app env with
  | (.error e, env1, t1) => (.error e, env1, t1)
  | (.ok _, env1, t1) =>
    if app.hasPublishEvent then
      (.ok ⟨app.id, true⟩, env1, t1 ++ [Ev.publish "app:restarted" app.id none])
    else
      (.error "TypeError: publishEvent is not a function", env1, t1)

/-- Checks that in a trace every supervisor start of process `pn` is
preceded by a completed stop of `pn`; `seen` records whether such a stop
has already completed. -/
def stopBeforeStart (pn : String) : Bool → List Ev → Bool
  | _, [] => true
  | seen, Ev.stopDone n :: rest => stopBeforeStart pn (seen || n == pn) rest
  | seen, Ev.supStart n :: rest =>
    if n == pn then seen && stopBeforeStart pn seen rest
    else stopBeforeStart pn seen rest
  | seen, _ :: rest => stopBeforeStart pn seen rest

/-- The publish events of a trace, in order. -/
def publishes : List Ev → List Ev
  | [] => []
  | Ev.publish n i v :: rest => Ev.publish n i v :: publishes rest
  | _ :: rest => publishes rest

/-! ### Webhook notification dispatcher -/

/-- The inbound webhook payload fields the handler reads:
`ref` (optional), `repository.full_name` and `repository.default_branch`. -/
structure Notification where
  ref : Option String
  fullName : String
  defaultBranch : String
deriving Repr, DecidableEq

/-- Branch resolution of the handler, with JS falsiness:
`(data.ref && R.last(data.ref.split("/"))) || data.repository.default_branch`.
A missing ref, an empty ref, or a ref whose last segment is empty all fall
back to the default branch. -/
def resolvedBranch (n : Notification) : String :=
  match n.ref with
  | none => n.defaultBranch
  | some r =>
    if r = "" then n.defaultBranch
    else
      let l := (jsSplit r).getLastD ""
      if l = "" then n.defaultBranch else l

/-- The `post` handler: filters the registered apps on
`app.repo.name === repository.full_name && app.branch === branch`, invokes
`update()` on each match without awaiting it, and always responds 200.
Returns the ids on which `update()` was invoked and the HTTP status. -/
def post (apps : List App) (n : Notification) : List String × Nat :=
  let branch := resolvedBranch n
  let matchingApps := apps.filter (fun a => a.repoName == n.fullName && a.branch == branch)
  (matchingApps.map (·.id), 200)

/-- Branch resolution exactly as the claim words it: the last path segment
of `ref` when `ref` is present, otherwise the default branch.  Written for
comparison with `resolvedBranch`, which is the code. -/
def claimBranch (n : Notification) : String :=
  match n.ref with
  | some r => (jsSplit r).getLastD ""
  | none => n.defaultBranch

/-- The set of app ids the claim says `update()` is invoked on: the apps
whose repo and branch equal the full name and the claim-resolved branch. -/
def claimDispatch (apps : List App) (n : Notification) : List String :=
  (apps.filter (fun a => a.repoName == n.fullName && a.branch == claimBranch n)).map (·.id)

/-- Branch resolution as the amended claim words it: the last path segment
of `ref` when `ref` is present and non-empty and that segment is non-empty,
otherwise the default branch. -/
def amendedBranch (n : Notification) : String :=
  match n.ref with
  | none => n.defaultBranch
  | some r =>
    let l := (jsSplit r).getLastD ""
    if r != "" && l != "" then l else n.defaultBranch

/-- The set of app ids the amended claim says `update()` is invoked on. -/
def amendedDispatch (apps : List App) (n : Notification) : List String :=
  (apps.filter (fun a => a.repoName == n.fullName && a.branch == amendedBranch n)).map (·.id)

/-! ### Concrete values used by witnesses and counterexamples -/

/-- A registration input with no branch field. -/
def c7Settings : Settings :=
  { userAgent := some "ua", id := some "svc-a", repo := some "acme/svc-a", route := some "/svc-a" }

/-- The app the factory builds from `c7Settings`. -/
def c7App : App :=
  { id := "svc-a", repoName := "acme/svc-a", repoSubFolder := "", repoFullPath := "acme/svc-a",
    routes := "/svc-a", port := 5000, branch := "master", localFolder := "./.build/svc-a",
    hasPublishEvent := false }

/-- A demo app used to instantiate lifecycle theorems. -/
def demoApp : App :=
  { id := "svc-a", repoName := "acme/svc-a", repoSubFolder := "", repoFullPath := "acme/svc-a",
    routes := "/svc-a", port := 5000, branch := "main", localFolder := "./.build/svc-a",
    hasPublishEvent := true }

/-- A world whose remote manifest is absent. -/
def c4Env : Env :=
  { localVersion := none, remoteVersion := none, downloadOk := true,
    pm2Installed := true, pm2Running := [] }

/-- A world with a version change and a working source. -/
def c5Env : Env :=
  { localVersion := some "1.2.0", remoteVersion := some "1.3.0", downloadOk := true,
    pm2Installed := true, pm2Running := ["svc-a:5000"] }

/-! ### Claim theorems -/

/-- C1: for every app, if a download operation is already in flight (the
in-flight slot holds handle `p`) then every further `download()` call
returns that same pending handle and the state — in particular the
materialization-invocation count — is unchanged, so the materialization
capability is not invoked again while the first operation is unsettled. -/
theorem download_single_flight (s : DlState) (p : Nat) (n : Nat)
    (h : s.downloading = some p) :
    (downloadN n s).1 = List.replicate n p ∧ (downloadN n s).2 = s := by
  induction n with
  | zero => simp [downloadN]
  | succ n ih =>
    have hd : download s = (p, s) := by simp [download, h]
    simp [downloadN, hd, ih, List.replicate_succ]

/-- Witness for C1: three further calls against a concrete in-flight state
all return handle 7 and leave the state untouched. -/
theorem download_single_flight_witness :
    (downloadN 3 ⟨some 7, 8, 1⟩).1 = List.replicate 3 7
  ∧ (downloadN 3 (⟨some 7, 8, 1⟩ : DlState)).2 = ⟨some 7, 8, 1⟩ :=
  download_single_flight ⟨some 7, 8, 1⟩ 7 3 rfl

/-- C2 (code bug): when the in-flight download settles with a failure the
slot is NOT released — the source attaches only a fulfillment handler to
clear it — so a later `download()` call returns the already-settled failed
operation and invokes no new materialization, whereas settling with success
does clear the slot. -/
theorem download_failure_slot_not_released :
    ((settleDownload (download ⟨none, 0, 0⟩).2 .failure).downloading = some 0)
  ∧ (download (settleDownload (download ⟨none, 0, 0⟩).2 .failure)
       = (0, (download ⟨none, 0, 0⟩).2))
  ∧ ((settleDownload (download ⟨none, 0, 0⟩).2 .failure).materializeCalls = 1)
  ∧ ((settleDownload (download ⟨none, 0, 0⟩).2 .success).downloading = none) := by
  decide

/-- C6: `stop()` always resolves `{id, stopped:true}` for every app and
every supervisor state — in particular when the named process is not
running (already stopped) — and its trace shows connect-and-delete exactly
when the supervisor is available and a no-op otherwise. -/
theorem stop_always_resolves (app : App) (env : Env) :
    (stop app env).1 = .ok ⟨app.id, true⟩
  ∧ (stop app env).2.2 =
      (if env.pm2Installed then
        [Ev.pm2Connect, Ev.pm2Delete (processName app), Ev.stopDone (processName app)]
       else [Ev.stopDone (processName app)]) := by
  cases h : env.pm2Installed <;>
    simp [stop, pm2ConnectOp, pm2DeleteOp, h]

/-- C7 counterexample: registering with no branch yields branch `"master"`,
not the claimed `"main"`. -/
theorem branch_default_is_master_not_main :
    (createApp c7Settings).toOption.map App.branch = some "master"
  ∧ ("master" : String) ≠ "main" := by
  exact ⟨rfl, by decide⟩

/-- C7 amended: for every registration input that omits branch, the created
app branch is `"master"`. -/
theorem branch_defaults_to_master (s : Settings) (a : App)
    (hb : s.branch = none) (h : createApp s = Except.ok a) : a.branch = "master" := by
  simp only [createApp] at h
  split_ifs at h
  rw [Except.ok.injEq] at h
  subst h
  simp [jsOrStr, hb]

/-- Witness for C7 amended at the concrete branchless registration input. -/
theorem branch_defaults_to_master_witness : c7App.branch = "master" :=
  branch_defaults_to_master c7Settings c7App rfl rfl

/-- C8: registration fails with a distinct, identifiable error for a
missing/empty id, for a repo with fewer than two path segments, and for a
missing/empty route (and for a missing/empty repo), and succeeds returning
the app on valid input. -/
theorem registration_validation (s : Settings) :
    (isEmpty s.id = true → createApp s = .error .missingId)
  ∧ (isEmpty s.id = false → isEmpty s.repo = false → isEmpty s.userAgent = false →
      isEmpty s.route = false → (jsSplit (s.repo.getD "")).length < 2 →
      createApp s = .error .repoTooFewSegments)
  ∧ (isEmpty s.id = false → isEmpty s.repo = false → isEmpty s.userAgent = false →
      isEmpty s.route = true → createApp s = .error .missingRoute)
  ∧ (isEmpty s.id = false → isEmpty s.repo = true → createApp s = .error .missingRepo)
  ∧ (isEmpty s.id = false → isEmpty s.repo = false → isEmpty s.userAgent = false →
      isEmpty s.route = false → ¬ (jsSplit (s.repo.getD "")).length < 2 →
      ∃ a, createApp s = .ok a)
  ∧ (FactoryError.missingId ≠ .repoTooFewSegments
     ∧ FactoryError.missingId ≠ .missingRoute
     ∧ FactoryError.repoTooFewSegments ≠ .missingRoute) := by
  refine ⟨?_, ?_, ?_, ?_, ?_, by decide⟩
  · intro h1; simp [createApp, h1]
  · intro h1 h2 h3 h4 h5; simp [createApp, h1, h2, h3, h4, h5]
  · intro h1 h2 h3 h4; simp [createApp, h1, h2, h3, h4]
  · intro h1 h2; simp [createApp, h1, h2]
  · intro h1 h2 h3 h4 h5
    cases hc : createApp s with
    | ok a => exact ⟨a, rfl⟩
    | error e => simp [createApp, h1, h2, h3, h4, h5] at hc

/-- Registration input missing everything. -/
def c8NoId : Settings := {}

/-- Registration input whose repo has a single path segment. -/
def c8OneSegment : Settings :=
  { userAgent := some "ua", id := some "a", repo := some "acme", route := some "/r" }

/-- Registration input with an empty route. -/
def c8EmptyRoute : Settings :=
  { userAgent := some "ua", id := some "a", repo := some "acme/x", route := some "" }

/-- A valid registration input. -/
def c8Valid : Settings :=
  { userAgent := some "ua", id := some "a", repo := some "acme/x", route := some "/r" }

/-- Witness for C8 at concrete inputs: each validation failure and one
successful registration. -/
theorem registration_validation_witness :
    createApp c8NoId = .error .missingId
  ∧ createApp c8OneSegment = .error .repoTooFewSegments
  ∧ createApp c8EmptyRoute = .error .missingRoute
  ∧ ∃ a, createApp c8Valid = .ok a := by
  refine ⟨(registration_validation _).1 rfl, ?_, ?_, ?_⟩
  · exact (registration_validation _).2.1 rfl rfl rfl rfl (by decide)
  · exact (registration_validation _).2.2.1 rfl rfl rfl rfl
  · exact (registration_validation _).2.2.2.2.1 rfl rfl rfl rfl (by decide)

/-- C4: when the remote manifest does not exist, `start()` resolves normally
with `started:false, exists:false` (and the version field empty), and the
trace contains no process-supervisor start for the app process. -/
theorem start_missing_remote (app : App) (env : Env) (h : env.remoteVersion = none) :
    (start app env).1 = .ok ⟨app.id, app.port, app.routes, none, false, false⟩
  ∧ Ev.supStart (processName app) ∉ (start app env).2.2 := by
  cases hp : env.pm2Installed <;>
    simp [start, updateNoStart, updateCore, stop, pm2ConnectOp, pm2DeleteOp, h, hp]

/-- Witness for C4 at a concrete app and a world with no remote manifest. -/
theorem start_missing_remote_witness :
    (start demoApp c4Env).1 = .ok ⟨demoApp.id, demoApp.port, demoApp.routes, none, false, false⟩
  ∧ Ev.supStart (processName demoApp) ∉ (start demoApp c4Env).2.2 :=
  start_missing_remote demoApp c4Env rfl

/-- Helper for C3: the `start()` trace respects stop-before-start. -/
theorem sbs_start_aux (app : App) (env : Env) :
    stopBeforeStart (processName app) false (start app env).2.2 = true := by
  obtain ⟨lv, rv, dOk, pmI, pmR⟩ := env
  cases rv with
  | none =>
    cases pmI <;> cases hpub : app.hasPublishEvent <;>
      simp [start, updateNoStart, updateCore, stop, pm2ConnectOp, pm2DeleteOp,
            stopBeforeStart, hpub]
  | some v =>
    by_cases hl : lv = some v
    · cases pmI <;> cases hpub : app.hasPublishEvent <;>
        simp [start, updateNoStart, updateCore, stop, pm2ConnectOp, pm2DeleteOp,
              stopBeforeStart, hpub, hl]
    · cases dOk <;> cases pmI <;> cases hpub : app.hasPublishEvent <;>
        simp [start, updateNoStart, updateCore, stop, pm2ConnectOp, pm2DeleteOp,
              stopBeforeStart, hpub, hl]

/-- C3: for every app, every world and both values of the start option, the
traces of `start()` and of `update()` respect stop-before-start: every
process-supervisor start of the app process `"<id>:<port>"` is preceded by a
completed stop of that process. -/
theorem stop_before_start (app : App) (env : Env) (startOpt : Bool) :
    stopBeforeStart (processName app) false (start app env).2.2 = true
  ∧ stopBeforeStart (processName app) false (update app env startOpt).2.2 = true := by
  refine ⟨sbs_start_aux app env, ?_⟩
  cases startOpt with
  | false =>
    obtain ⟨lv, rv, dOk, pmI, pmR⟩ := env
    cases rv with
    | none =>
      cases hpub : app.hasPublishEvent <;>
        simp [update, updateNoStart, updateCore, stopBeforeStart, hpub]
    | some v =>
      by_cases hl : lv = some v
      · cases hpub : app.hasPublishEvent <;>
          simp [update, updateNoStart, updateCore, stopBeforeStart, hpub, hl]
      · cases dOk <;> cases hpub : app.hasPublishEvent <;>
          simp [update, updateNoStart, updateCore, stopBeforeStart, hpub, hl]
  | true =>
    obtain ⟨lv, rv, dOk, pmI, pmR⟩ := env
    cases rv with
    | none =>
      cases hpub : app.hasPublishEvent <;>
        simp [update, updateNoStart, updateCore, stop, pm2ConnectOp, pm2DeleteOp,
              start, stopBeforeStart, hpub]
    | some v =>
      by_cases hl : lv = some v
      · cases hpub : app.hasPublishEvent <;>
          simp [update, updateNoStart, updateCore, stop, pm2ConnectOp, pm2DeleteOp,
                start, stopBeforeStart, hpub, hl]
      · cases dOk <;> cases pmI <;> cases hpub : app.hasPublishEvent <;>
          simp [update, updateNoStart, updateCore, stop, pm2ConnectOp, pm2DeleteOp,
                start, stopBeforeStart, hpub, hl]

/-- C5: with a publish callback supplied, `update()` fires exactly one
publish — named `app:updated` with payload id and version taken from its
result — exactly when its settled result has `updated` true, and fires
nothing when the result has `updated` false or the operation rejects. -/
theorem update_publishes_exactly_on_updated (app : App) (env : Env) (startOpt : Bool)
    (hpub : app.hasPublishEvent = true) :
    match update app env startOpt with
    | (.ok res, _, t) =>
        publishes t = (if res.updated then [Ev.publish "app:updated" app.id res.version] else [])
    | (.error _, _, t) => publishes t = [] := by
  obtain ⟨lv, rv, dOk, pmI, pmR⟩ := env
  cases rv with
  | none =>
    cases startOpt <;>
      simp [update, updateNoStart, updateCore, publishes, hpub]
  | some v =>
    by_cases hl : lv = some v
    · cases startOpt <;>
        simp [update, updateNoStart, updateCore, publishes, hpub, hl]
    · cases dOk <;> cases pmI <;> cases startOpt <;>
        simp [update, updateNoStart, updateCore, stop, pm2ConnectOp, pm2DeleteOp,
              start, publishes, hpub, hl]

/-- Witness for C5 at a concrete app with a callback and a world with a
version change. -/
theorem update_publishes_exactly_on_updated_witness :
    match update demoApp c5Env true with
    | (.ok res, _, t) =>
        publishes t = (if res.updated then [Ev.publish "app:updated" demoApp.id res.version] else [])
    | (.error _, _, t) => publishes t = [] :=
  update_publishes_exactly_on_updated demoApp c5Env true rfl

/-- C10: for every app created without a publish callback, `restart()`
always rejects — the callback is called unconditionally after `start()`
succeeds — while `update()` on the same app is oblivious to the missing
callback: its outcome equals the outcome with a callback supplied, and with
a working source it resolves normally. -/
theorem restart_requires_publish_callback (app : App) (env : Env) (startOpt : Bool)
    (h : app.hasPublishEvent = false) :
    (∃ e, (restart app env).1 = .error e)
  ∧ (update app env startOpt).1 = (update { app with hasPublishEvent := true } env startOpt).1
  ∧ (env.downloadOk = true → ∃ r, (update app env startOpt).1 = .ok r) := by
  obtain ⟨lv, rv, dOk, pmI, pmR⟩ := env
  refine ⟨?_, ?_, ?_⟩
  · cases rv with
    | none =>
      cases pmI <;>
        simp [restart, start, updateNoStart, updateCore, stop, pm2ConnectOp, pm2DeleteOp, h]
    | some v =>
      by_cases hl : lv = some v
      · cases pmI <;>
          simp [restart, start, updateNoStart, updateCore, stop, pm2ConnectOp, pm2DeleteOp, h, hl]
      · cases dOk <;> cases pmI <;>
          simp [restart, start, updateNoStart, updateCore, stop, pm2ConnectOp, pm2DeleteOp, h, hl]
  · cases rv with
    | none => cases startOpt <;> simp [update, updateNoStart, updateCore, h]
    | some v =>
      by_cases hl : lv = some v
      · cases startOpt <;> simp [update, updateNoStart, updateCore, h, hl]
      · cases dOk <;> cases pmI <;> cases startOpt <;>
          simp [update, updateNoStart, updateCore, stop, pm2ConnectOp, pm2DeleteOp, start, h, hl]
  · intro hd
    subst hd
    cases rv with
    | none => cases startOpt <;> simp [update, updateNoStart, updateCore, h]
    | some v =>
      by_cases hl : lv = some v
      · cases startOpt <;> simp [update, updateNoStart, updateCore, h, hl]
      · cases pmI <;> cases startOpt <;>
          simp [update, updateNoStart, updateCore, stop, pm2ConnectOp, pm2DeleteOp, start, h, hl]

/-- The demo app without a publish callback. -/
def c10App : App := { demoApp with hasPublishEvent := false }

/-- Witness for C10 at the concrete callbackless app and a world with a
version change. -/
theorem restart_requires_publish_callback_witness :
    (∃ e, (restart c10App c5Env).1 = .error e)
  ∧ (update c10App c5Env true).1 = (update { c10App with hasPublishEvent := true } c5Env true).1
  ∧ (c5Env.downloadOk = true → ∃ r, (update c10App c5Env true).1 = .ok r) :=
  restart_requires_publish_callback c10App c5Env true rfl

/-- A notification whose ref ends in a slash, so its last path segment is
empty (JS split) — or `"heads"` if empty segments are discounted. -/
def c9Notif : Notification :=
  { ref := some "refs/heads/", fullName := "acme/svc-a", defaultBranch := "main" }

/-- C9 counterexample: on `c9Notif` the handler invokes `update()` on the
app registered on branch `"main"` (the ref being truthy but its last
segment falsy, the code falls back to the default branch), although the
last path segment of the ref is `""` — or `"heads"` under the
ignore-empty-segments reading — and neither equals `"main"`, so the
claim-matching set is empty while the code-matching set is not. -/
theorem webhook_branch_resolution_counterexample :
    (post [demoApp] c9Notif).1 = ["svc-a"]
  ∧ claimDispatch [demoApp] c9Notif = []
  ∧ claimBranch c9Notif = ""
  ∧ ("" : String) ≠ "main" ∧ ("heads" : String) ≠ "main" := by
  decide

/-- C9 amended: for every inbound notification the handler responds 200
(zero matches included) and invokes `update()` exactly on the registered
apps whose repo equals `repository.full_name` and whose branch equals the
resolved branch, where the resolved branch is the last path segment of
`ref` when `ref` is present and non-empty and that segment is non-empty,
and `repository.default_branch` otherwise. -/
theorem webhook_dispatch_amended (apps : List App) (n : Notification) :
    post apps n = (amendedDispatch apps n, 200) := by
  have hb : resolvedBranch n = amendedBranch n := by
    rcases n with ⟨r, fn, db⟩
    cases r with
    | none => rfl
    | some s =>
      by_cases hs : s = ""
      · simp [resolvedBranch, amendedBranch, hs]
      · by_cases hlast : (jsSplit s).getLastD "" = ""
        · simp [resolvedBranch, amendedBranch, hs, hlast]
        · simp [resolvedBranch, amendedBranch, hs, hlast]
  simp [post, amendedDispatch, hb]

end AppSync
